import Mathlib

/-!
Verification of the AlphaGenome client scripts.

This file gives a shallow embedding of the two scripted API clients of the
repository — `AlphaGenomeAPI` from alphagenomic_practical_guide.py and
`AlphaGenomePredictor` together with `SickleCellMutation` from
sickle_cell_prediction.py — and proves the behavioural properties the
specification states about them.

Modelling conventions:
* Python dictionaries and JSON values are embedded as the inductive `JVal`;
  dictionaries are ordered association lists, as in CPython.
* Python floats only appear as literal constants that are never computed
  with, so they are carried as exact rationals.
* The `requests` HTTP layer is a parameter: an oracle of type
  `HttpRequest → HttpResult` stands for one `requests.post` call (`exn`
  covers connection errors and timeouts, i.e. a `RequestException` raised by
  the transport itself).  `Response.raise_for_status` is embedded after the
  documented behaviour of the requests library: it raises `HTTPError`
  exactly for 4xx and 5xx status codes.
* A Python function that can raise is embedded with result type
  `Except String _`; `Except.error` is an uncaught exception.
* Each client method also returns the list of HTTP requests it issued, so
  that single-request (no retry) properties can be stated.
-/

/-- A JSON-like Python value: None, bool, int, float (exact rational,
floats occur only as literals here), str, list, and dict as an ordered
association list. -/
inductive JVal where
  | null
  | bool (b : Bool)
  | int (n : Int)
  | num (q : Rat)
  | str (s : String)
  | arr (elems : List JVal)
  | obj (fields : List (String × JVal))

/-- Python `str(x)` as used inside the f-strings of the scripts.  Every
call site interpolates a `str` or an `int`, so only those two cases are
ever exercised; the remaining cases are given placeholder renderings. -/
def JVal.pyStr : JVal → String
  | .null => "None"
  | .bool b => if b then "True" else "False"
  | .int n => toString n
  | .num q => toString q
  | .str s => s
  | .arr _ => "<list>"
  | .obj _ => "<dict>"

/-- Python `d[k]` on a dict: the value at the first matching key, or a
`KeyError` when the key is absent (or the value is not a dict at all). -/
def getItem (j : JVal) (k : String) : Except String JVal :=
  match j with
  | .obj fields =>
    match fields.lookup k with
    | some v => .ok v
    | none => .error ("KeyError: " ++ k)
  | _ => .error ("TypeError: value is not a dict, key " ++ k)

/-- The keys of a dict, in insertion order; `[]` on non-dicts. -/
def objKeys : JVal → List String
  | .obj fields => fields.map Prod.fst
  | _ => []

/-- Whether a dict has the given key. -/
def hasKey (j : JVal) (k : String) : Bool :=
  match getItem j k with
  | .ok _ => true
  | .error _ => false

/-- A value is non-null when it is anything but `None`. -/
def isNonNull : JVal → Bool
  | .null => false
  | _ => true

/-- The string elements of a JSON array, `[]` on non-arrays. -/
def strElems : JVal → List String
  | .arr elems => elems.filterMap fun v =>
      match v with
      | .str s => some s
      | _ => none
  | _ => []

/-- An HTTP request as issued by `requests.post(url, json=body, ...,
timeout=t)`. -/
structure HttpRequest where
  url : String
  body : JVal
  timeout : Nat

/-- An HTTP response: status code and (already decoded) JSON body. -/
structure HttpResponse where
  status_code : Nat
  body : JVal

/-- Outcome of one `requests.post` call: a response, or a transport-level
`RequestException` (connection error, timeout). -/
inductive HttpResult where
  | ok (resp : HttpResponse)
  | exn (msg : String)

/-- Whether a status code is in the 2xx success range. -/
def is2xx (s : Nat) : Bool := 200 ≤ s && s < 300

/-- Whether a status code makes `raise_for_status` raise: the requests
library raises `HTTPError` exactly for 4xx client and 5xx server errors. -/
def isHttpError (s : Nat) : Bool := 400 ≤ s && s < 600

/-- Embedding of `requests.Response.raise_for_status`: raises `HTTPError`
(a `RequestException`) for 4xx/5xx status codes, otherwise returns. -/
def raise_for_status (r : HttpResponse) : Except String HttpResponse :=
  if isHttpError r.status_code then
    .error ("HTTP error " ++ toString r.status_code)
  else
    .ok r

/-- A transport-level failure of one call, as caught by the scripts'
`except requests.exceptions.RequestException` clauses: either the
transport raised, or `raise_for_status` did. -/
def isTransportFailure : HttpResult → Bool
  | .exn _ => true
  | .ok resp => isHttpError resp.status_code

/-- Python truthiness of an optional string: `None` and `""` are falsy. -/
def truthy : Option String → Bool
  | none => false
  | some s => s != ""

/-- Python `a or b` on optional strings, as in
`self.api_key = api_key or os.getenv("ALPHAGENOMIC_API_KEY")`. -/
def pyOr (a b : Option String) : Option String :=
  if truthy a then a else b

namespace AlphaGenomeAPI

/-- `AlphaGenomeAPI.BASE_URL`. -/
def BASE_URL : String := "http://deepmind.google.com/science/alphagenome/api"

/-- `AlphaGenomeAPI.__init__`: the stored key is the constructor argument
when truthy, otherwise the `ALPHAGENOMIC_API_KEY` environment variable
(which may itself be absent). -/
def init (api_key env_key : Option String) : Option String :=
  pyOr api_key env_key

/-- The modality list hard-coded into the payload of
`predict_variant_effect`. -/
def predictModalities : List String :=
  ["gene_expression", "splicing", "chromatin_accessibility",
   "histone_modifications", "transcription_factor_binding",
   "chromatin_contact_maps"]

/-- The JSON payload built by `predict_variant_effect`. -/
def predictPayload (chromosome : String) (position : Int)
    (ref_allele alt_allele organism : String) : JVal :=
  .obj [("chromosome", .str chromosome),
        ("position", .int position),
        ("ref", .str ref_allele),
        ("alt", .str alt_allele),
        ("organism", .str organism),
        ("modalities", .arr (predictModalities.map .str))]

/-- The JSON payload built by `score_variant`. -/
def scorePayload (chromosome : String) (position : Int)
    (ref_allele alt_allele : String) (quantile_normalized : Bool) : JVal :=
  .obj [("chromosome", .str chromosome),
        ("position", .int position),
        ("ref", .str ref_allele),
        ("alt", .str alt_allele),
        ("quantile_normalized", .bool quantile_normalized)]

/-- `AlphaGenomeAPI._mock_prediction`: reads the chromosome, position, ref,
alt and organism entries of the payload (a `KeyError` if one is absent)
and returns the fixed five-modality mock response.  Note that the returned
modalities omit `chromatin_contact_maps` even though the payload of
`predict_variant_effect` requests it. -/
def mock_prediction (payload : JVal) : Except String JVal :=
  (getItem payload "chromosome").bind fun c =>
  (getItem payload "position").bind fun p =>
  (getItem payload "ref").bind fun r =>
  (getItem payload "alt").bind fun a =>
  (getItem payload "organism").bind fun o =>
  .ok (.obj
    [("status", .str "mock_data"),
     ("variant", .str (c.pyStr ++ ":" ++ p.pyStr ++ ":" ++ r.pyStr ++ ">" ++ a.pyStr)),
     ("organism", o),
     ("modalities", .obj
       [("gene_expression", .obj
          [("score", .num (45/100)),
           ("direction", .str "decreased"),
           ("confidence", .num (82/100)),
           ("note", .str "Mock data - connect API for real predictions")]),
        ("splicing", .obj
          [("score", .num (12/100)),
           ("direction", .str "minimal_effect"),
           ("confidence", .num (71/100))]),
        ("chromatin_accessibility", .obj
          [("score", .num (-33/100)),
           ("direction", .str "decreased"),
           ("confidence", .num (68/100))]),
        ("histone_modifications", .obj
          [("score", .num (8/100)),
           ("direction", .str "minimal_effect"),
           ("confidence", .num (59/100))]),
        ("transcription_factor_binding", .obj
          [("score", .num (-28/100)),
           ("direction", .str "decreased"),
           ("confidence", .num (75/100))])])])

/-- `AlphaGenomeAPI._mock_scores`: reads the chromosome, position, ref and
alt entries of the payload and returns the fixed two-modality mock score
response. -/
def mock_scores (payload : JVal) : Except String JVal :=
  (getItem payload "chromosome").bind fun c =>
  (getItem payload "position").bind fun p =>
  (getItem payload "ref").bind fun r =>
  (getItem payload "alt").bind fun a =>
  .ok (.obj
    [("status", .str "mock_data"),
     ("variant", .str (c.pyStr ++ ":" ++ p.pyStr ++ ":" ++ r.pyStr ++ ">" ++ a.pyStr)),
     ("quantile_scores", .obj
       [("gene_expression", .obj
          [("raw_score", .num (-12/10)),
           ("quantile", .num (15/100)),
           ("percentile", .str "15th percentile"),
           ("interpretation", .str "Effect stronger than 85% of common variants")]),
        ("splicing", .obj
          [("raw_score", .num (5/100)),
           ("quantile", .num (48/100)),
           ("percentile", .str "48th percentile")])])])

/-- The single request `predict_variant_effect` posts when a key is set. -/
def predictRequest (chromosome : String) (position : Int)
    (ref_allele alt_allele organism : String) : HttpRequest :=
  ⟨BASE_URL ++ "/predict",
   predictPayload chromosome position ref_allele alt_allele organism, 60⟩

/-- The single request `score_variant` posts when a key is set. -/
def scoreRequest (chromosome : String) (position : Int)
    (ref_allele alt_allele : String) (quantile_normalized : Bool) : HttpRequest :=
  ⟨BASE_URL ++ "/score",
   scorePayload chromosome position ref_allele alt_allele quantile_normalized, 60⟩

/-- `AlphaGenomeAPI.predict_variant_effect`.  With a falsy key it returns
the mock prediction and issues no request; otherwise it posts the payload
once with timeout 60, returns `response.json()` on success, and converts
any `RequestException` (transport failure or `raise_for_status` on
4xx/5xx) into an `error` payload.  The second component lists the HTTP
requests issued. -/
def predict_variant_effect (api_key : Option String)
    (http : HttpRequest → HttpResult)
    (chromosome : String) (position : Int)
    (ref_allele alt_allele organism : String) :
    Except String JVal × List HttpRequest :=
  let payload := predictPayload chromosome position ref_allele alt_allele organism
  if truthy api_key = false then
    (mock_prediction payload, [])
  else
    let req := predictRequest chromosome position ref_allele alt_allele organism
    match http req with
    | .ok resp =>
      match raise_for_status resp with
      | .ok r => (.ok r.body, [req])
      | .error e => (.ok (.obj [("error", .str e)]), [req])
    | .exn e => (.ok (.obj [("error", .str e)]), [req])

/-- `AlphaGenomeAPI.score_variant`: same shape as `predict_variant_effect`
with the score payload and endpoint. -/
def score_variant (api_key : Option String)
    (http : HttpRequest → HttpResult)
    (chromosome : String) (position : Int)
    (ref_allele alt_allele : String) (quantile_normalized : Bool) :
    Except String JVal × List HttpRequest :=
  let payload := scorePayload chromosome position ref_allele alt_allele quantile_normalized
  if truthy api_key = false then
    (mock_scores payload, [])
  else
    let req := scoreRequest chromosome position ref_allele alt_allele quantile_normalized
    match http req with
    | .ok resp =>
      match raise_for_status resp with
      | .ok r => (.ok r.body, [req])
      | .error e => (.ok (.obj [("error", .str e)]), [req])
    | .exn e => (.ok (.obj [("error", .str e)]), [req])

end AlphaGenomeAPI

/-- The dataclass of sickle_cell_prediction.py (its class name is written
with a stray space in the source file, an artifact of transcription; the
fields are as declared).  The `hgvs` field is `hgvs_notation` in the
source. -/
structure SickleCellMutation where
  chromosome : String
  position : Int
  ref_allele : String
  alt_allele : String
  gene : String
  disease : String
  hgvs : String
  clinical_significance : String

/-- The warnings `SickleCellMutation.__post_init__` logs: one warning when
either allele does not have length 1, and nothing otherwise.  It never
raises. -/
def post_init_warnings (ref_allele alt_allele : String) : List String :=
  if ref_allele.length != 1 || alt_allele.length != 1 then
    ["This is a SNV (single nucleotide variant)"]
  else
    []

/-- Dataclass construction followed by `__post_init__`: the body is a
conditional `logger.warning`, so construction always succeeds and the
field values are stored verbatim; the second component is the list of
warnings logged. -/
def SickleCellMutation.create (chromosome : String) (position : Int)
    (ref_allele alt_allele gene disease hgvs clinical_significance : String) :
    Except String (SickleCellMutation × List String) :=
  .ok (⟨chromosome, position, ref_allele, alt_allele, gene, disease, hgvs,
        clinical_significance⟩,
       post_init_warnings ref_allele alt_allele)

namespace AlphaGenomePredictor

/-- The default modality list of
`AlphaGenomePredictor.predict_variant_effect`, used when the caller passes
no modalities. -/
def defaultModalities : List String :=
  ["gene_expression", "splicing", "chromatin_accessibility",
   "histone_modifications", "transcription_factor_binding"]

/-- The record stored for every requested modality by
`AlphaGenomePredictor.predict_variant_effect`. -/
def awaitingRecord : JVal :=
  .obj [("score", .null),
        ("direction", .null),
        ("confidence", .null),
        ("status", .str "awaiting_api_connection")]

/-- `AlphaGenomePredictor.predict_variant_effect`.  The `try` body builds
the variant spec and the mock prediction dict with a loop over the
requested modalities and performs no HTTP request (the `session.post` is
commented out), so the `except requests.RequestException: return None`
branch is unreachable and the embedding is a total function returning
`some`; `none` would model that branch. -/
def predict_variant_effect (chromosome : String) (position : Int)
    (ref_allele alt_allele : String) (modalities : Option (List String)) :
    Option JVal :=
  let ms := modalities.getD defaultModalities
  some (.obj
    [("variant", .str (chromosome ++ ":" ++ toString position ++ ":" ++
                       ref_allele ++ ">" ++ alt_allele)),
     ("modalities", .obj (ms.map fun m => (m, awaitingRecord)))])

/-- `AlphaGenomePredictor.score_variant`: builds a variant spec it never
sends and returns the fixed dict with an empty `scores` entry; the
`except Exception: return None` branch is likewise unreachable. -/
def score_variant (chromosome : String) (position : Int)
    (ref_allele alt_allele : String) : Option JVal :=
  some (.obj
    [("variant", .str (chromosome ++ ":" ++ toString position ++ ":" ++
                       ref_allele ++ ">" ++ alt_allele)),
     ("scores", .obj [])])

end AlphaGenomePredictor

/-- The identifier format `chromosome:position:ref>alt` common to every
locally built response of both scripts. -/
def variantId (chromosome : String) (position : Int)
    (ref_allele alt_allele : String) : String :=
  chromosome ++ ":" ++ toString position ++ ":" ++ ref_allele ++ ">" ++ alt_allele

/-- Whether an embedded call completed without an uncaught exception. -/
def completedOk : Except String JVal → Bool
  | .ok _ => true
  | .error _ => false

/-- The `status` entry of a completed response, when it is a string. -/
def statusOfResult : Except String JVal → Option String
  | .ok v =>
    match getItem v "status" with
    | .ok (.str s) => some s
    | _ => none
  | .error _ => none

/-- The `variant` entry of a completed response, when it is a string. -/
def variantOfResult : Except String JVal → Option String
  | .ok v =>
    match getItem v "variant" with
    | .ok (.str s) => some s
    | _ => none
  | .error _ => none

/-- The `variant` entry of an optional response dict, when present. -/
def variantOfOpt : Option JVal → Option String
  | some v =>
    match getItem v "variant" with
    | .ok (.str s) => some s
    | _ => none
  | none => none

/-- The `modalities` dict of a completed response (`null` when absent). -/
def modalitiesOfResult : Except String JVal → JVal
  | .ok v =>
    match getItem v "modalities" with
    | .ok m => m
    | .error _ => .null
  | .error _ => .null

/-- Whether a completed response contains the given key. -/
def resultHasKey (e : Except String JVal) (k : String) : Bool :=
  match e with
  | .ok v => hasKey v k
  | .error _ => false

/-- The modality names requested in a payload's `modalities` entry. -/
def payloadModalityNames (payload : JVal) : List String :=
  match getItem payload "modalities" with
  | .ok v => strElems v
  | .error _ => []

/-- A modality record with all three of `score`, `direction` and
`confidence` present and non-null. -/
def nonNullSDC (record : JVal) : Bool :=
  (match getItem record "score" with
   | .ok v => isNonNull v
   | .error _ => false) &&
  (match getItem record "direction" with
   | .ok v => isNonNull v
   | .error _ => false) &&
  (match getItem record "confidence" with
   | .ok v => isNonNull v
   | .error _ => false)

/-- Every record of a modalities dict satisfies `nonNullSDC`. -/
def allRecordsNonNull : JVal → Bool
  | .obj fields => fields.all fun kv => nonNullSDC kv.snd
  | _ => false

/-- The `quantile_scores` dict of a completed response (`null` when
absent). -/
def quantileScoresOfResult : Except String JVal → JVal
  | .ok v =>
    match getItem v "quantile_scores" with
    | .ok m => m
    | .error _ => .null
  | .error _ => .null

/-- The record an optional response dict stores under `m` in its
`modalities` entry. -/
def modalityRecordOfOpt (o : Option JVal) (m : String) : Option JVal :=
  match o with
  | some v =>
    match getItem v "modalities" with
    | .ok mm =>
      match getItem mm m with
      | .ok record => some record
      | .error _ => none
    | .error _ => none
  | none => none

/-- Looking a member up in an association list that maps every key of `ms`
to the constant `r` yields `r`. -/
theorem lookup_map_const (r : JVal) (m : String) (ms : List String)
    (hm : m ∈ ms) :
    List.lookup m (ms.map fun x => (x, r)) = some r := by
  induction ms with
  | nil => cases hm
  | cons x xs ih =>
    rcases List.mem_cons.mp hm with h | h
    · subst h
      simp [List.lookup]
    · by_cases hx : m = x
      · subst hx
        simp [List.lookup]
      · have hbx : (m == x) = false := beq_eq_false_iff_ne.mpr hx
        simpa [List.lookup, hbx] using ih h

/-- The modality names of the payload built by `predict_variant_effect`
are the six hard-coded ones. -/
theorem payloadModalityNames_predictPayload (c : String) (p : Int)
    (r a o : String) :
    payloadModalityNames (AlphaGenomeAPI.predictPayload c p r a o) =
      AlphaGenomeAPI.predictModalities := rfl

/-- C3: on the literal sickle-cell input chr11:5248232 C>T the mock
prediction path returns exactly the five configured modalities
gene_expression, splicing, chromatin_accessibility, histone_modifications
and transcription_factor_binding, each with non-null score, direction and
confidence fields. -/
theorem C3_mock_five_modalities_nonnull :
    objKeys (modalitiesOfResult
      (AlphaGenomeAPI.predict_variant_effect none (fun _ => .exn "")
        "chr11" 5248232 "C" "T" "human").fst) =
      ["gene_expression", "splicing", "chromatin_accessibility",
       "histone_modifications", "transcription_factor_binding"] ∧
    allRecordsNonNull (modalitiesOfResult
      (AlphaGenomeAPI.predict_variant_effect none (fun _ => .exn "")
        "chr11" 5248232 "C" "T" "human").fst) = true :=
  ⟨rfl, rfl⟩

/-- C1 counterexample: with no key configured and the literal sickle-cell
input, the payload built by `predict_variant_effect` names
chromatin_contact_maps among its modalities, yet the returned mock
response (tagged mock_data) has no entry for it, so the response does not
contain an entry for every modality named in the payload. -/
theorem C1_counterexample :
    "chromatin_contact_maps" ∈
      payloadModalityNames
        (AlphaGenomeAPI.predictPayload "chr11" 5248232 "C" "T" "human") ∧
    statusOfResult
      (AlphaGenomeAPI.predict_variant_effect (AlphaGenomeAPI.init none none)
        (fun _ => .exn "") "chr11" 5248232 "C" "T" "human").fst
      = some "mock_data" ∧
    hasKey (modalitiesOfResult
      (AlphaGenomeAPI.predict_variant_effect (AlphaGenomeAPI.init none none)
        (fun _ => .exn "") "chr11" 5248232 "C" "T" "human").fst)
      "chromatin_contact_maps" = false :=
  ⟨by decide, rfl, rfl⟩

/-- C1 (amended): with no API key configured (neither passed to the
constructor nor present in the environment), `predict_variant_effect`
returns without raising a response whose status is mock_data and whose
modalities mapping contains an entry for every modality named in the
request payload except chromatin_contact_maps. -/
theorem C1_mock_response_modalities (c : String) (p : Int) (r a o : String)
    (http : HttpRequest → HttpResult) (m : String)
    (hm : m ∈ payloadModalityNames (AlphaGenomeAPI.predictPayload c p r a o))
    (hne : m ≠ "chromatin_contact_maps") :
    completedOk (AlphaGenomeAPI.predict_variant_effect
      (AlphaGenomeAPI.init none none) http c p r a o).fst = true ∧
    statusOfResult (AlphaGenomeAPI.predict_variant_effect
      (AlphaGenomeAPI.init none none) http c p r a o).fst = some "mock_data" ∧
    hasKey (modalitiesOfResult (AlphaGenomeAPI.predict_variant_effect
      (AlphaGenomeAPI.init none none) http c p r a o).fst) m = true := by
  rw [payloadModalityNames_predictPayload] at hm
  simp only [AlphaGenomeAPI.predictModalities, List.mem_cons,
    List.not_mem_nil, or_false] at hm
  rcases hm with rfl | rfl | rfl | rfl | rfl | rfl
  · exact ⟨rfl, rfl, rfl⟩
  · exact ⟨rfl, rfl, rfl⟩
  · exact ⟨rfl, rfl, rfl⟩
  · exact ⟨rfl, rfl, rfl⟩
  · exact ⟨rfl, rfl, rfl⟩
  · exact absurd rfl hne

/-- Witness for the amended C1 at the sickle-cell input and the
gene_expression modality. -/
theorem C1_mock_response_modalities_witness :
    completedOk (AlphaGenomeAPI.predict_variant_effect
      (AlphaGenomeAPI.init none none) (fun _ => .exn "")
      "chr11" 5248232 "C" "T" "human").fst = true ∧
    statusOfResult (AlphaGenomeAPI.predict_variant_effect
      (AlphaGenomeAPI.init none none) (fun _ => .exn "")
      "chr11" 5248232 "C" "T" "human").fst = some "mock_data" ∧
    hasKey (modalitiesOfResult (AlphaGenomeAPI.predict_variant_effect
      (AlphaGenomeAPI.init none none) (fun _ => .exn "")
      "chr11" 5248232 "C" "T" "human").fst) "gene_expression" = true :=
  C1_mock_response_modalities "chr11" 5248232 "C" "T" "human"
    (fun _ => .exn "") "gene_expression" (by decide) (by decide)

/-- C2: with a key configured, when the one HTTP call fails at the
transport level (a raised `RequestException` or a 4xx/5xx status turned
into one by `raise_for_status`), both `predict_variant_effect` and
`score_variant` return, without raising, a dictionary containing the key
`error`. -/
theorem C2_transport_error_surfaced (api_key : Option String)
    (http : HttpRequest → HttpResult) (c : String) (p : Int)
    (r a o : String) (qn : Bool)
    (hk : truthy api_key = true)
    (hp : isTransportFailure
      (http (AlphaGenomeAPI.predictRequest c p r a o)) = true)
    (hs : isTransportFailure
      (http (AlphaGenomeAPI.scoreRequest c p r a qn)) = true) :
    (completedOk (AlphaGenomeAPI.predict_variant_effect api_key http
        c p r a o).fst = true ∧
     resultHasKey (AlphaGenomeAPI.predict_variant_effect api_key http
        c p r a o).fst "error" = true) ∧
    (completedOk (AlphaGenomeAPI.score_variant api_key http
        c p r a qn).fst = true ∧
     resultHasKey (AlphaGenomeAPI.score_variant api_key http
        c p r a qn).fst "error" = true) := by
  constructor
  · cases hh : http (AlphaGenomeAPI.predictRequest c p r a o) with
    | ok resp =>
      rw [hh] at hp
      simp only [isTransportFailure] at hp
      simp [AlphaGenomeAPI.predict_variant_effect, hk, hh,
        raise_for_status, hp, completedOk, resultHasKey, hasKey, getItem,
        List.lookup]
    | exn e =>
      simp [AlphaGenomeAPI.predict_variant_effect, hk, hh, completedOk,
        resultHasKey, hasKey, getItem, List.lookup]
  · cases hh : http (AlphaGenomeAPI.scoreRequest c p r a qn) with
    | ok resp =>
      rw [hh] at hs
      simp only [isTransportFailure] at hs
      simp [AlphaGenomeAPI.score_variant, hk, hh, raise_for_status, hs,
        completedOk, resultHasKey, hasKey, getItem, List.lookup]
    | exn e =>
      simp [AlphaGenomeAPI.score_variant, hk, hh, completedOk,
        resultHasKey, hasKey, getItem, List.lookup]

/-- Witness for C2 at the sickle-cell input with a timed-out transport. -/
theorem C2_transport_error_surfaced_witness :
    (completedOk (AlphaGenomeAPI.predict_variant_effect (some "key")
        (fun _ => .exn "timeout") "chr11" 5248232 "C" "T" "human").fst = true ∧
     resultHasKey (AlphaGenomeAPI.predict_variant_effect (some "key")
        (fun _ => .exn "timeout") "chr11" 5248232 "C" "T" "human").fst
        "error" = true) ∧
    (completedOk (AlphaGenomeAPI.score_variant (some "key")
        (fun _ => .exn "timeout") "chr11" 5248232 "C" "T" true).fst = true ∧
     resultHasKey (AlphaGenomeAPI.score_variant (some "key")
        (fun _ => .exn "timeout") "chr11" 5248232 "C" "T" true).fst
        "error" = true) :=
  C2_transport_error_surfaced (some "key") (fun _ => .exn "timeout")
    "chr11" 5248232 "C" "T" "human" true (by decide) (by decide) (by decide)

/-- C4: every locally built prediction or score response — the two mock
responses of `AlphaGenomeAPI` (taken on any falsy key) and the two
responses of `AlphaGenomePredictor` — carries the variant identifier
`chromosome:position:ref>alt`. -/
theorem C4_variant_identifier_format (api_key : Option String)
    (http : HttpRequest → HttpResult) (c : String) (p : Int)
    (r a o : String) (qn : Bool) (mo : Option (List String))
    (hk : truthy api_key = false) :
    variantOfResult (AlphaGenomeAPI.predict_variant_effect api_key http
      c p r a o).fst = some (variantId c p r a) ∧
    variantOfResult (AlphaGenomeAPI.score_variant api_key http
      c p r a qn).fst = some (variantId c p r a) ∧
    variantOfOpt (AlphaGenomePredictor.predict_variant_effect c p r a mo)
      = some (variantId c p r a) ∧
    variantOfOpt (AlphaGenomePredictor.score_variant c p r a)
      = some (variantId c p r a) := by
  refine ⟨?_, ?_, rfl, rfl⟩
  · simp only [AlphaGenomeAPI.predict_variant_effect, hk]
    rfl
  · simp only [AlphaGenomeAPI.score_variant, hk]
    rfl

/-- Witness for C4 at the sickle-cell input with no key configured. -/
theorem C4_variant_identifier_format_witness :
    variantOfResult (AlphaGenomeAPI.predict_variant_effect none
      (fun _ => .exn "") "chr11" 5248232 "C" "T" "human").fst
      = some (variantId "chr11" 5248232 "C" "T") ∧
    variantOfResult (AlphaGenomeAPI.score_variant none
      (fun _ => .exn "") "chr11" 5248232 "C" "T" true).fst
      = some (variantId "chr11" 5248232 "C" "T") ∧
    variantOfOpt (AlphaGenomePredictor.predict_variant_effect
      "chr11" 5248232 "C" "T" none)
      = some (variantId "chr11" 5248232 "C" "T") ∧
    variantOfOpt (AlphaGenomePredictor.score_variant "chr11" 5248232 "C" "T")
      = some (variantId "chr11" 5248232 "C" "T") :=
  C4_variant_identifier_format none (fun _ => .exn "") "chr11" 5248232
    "C" "T" "human" true none (by decide)

/-- C5 counterexample: a 300 response status is not 2xx, yet with a key
configured `predict_variant_effect` does not raise on it:
`raise_for_status` only raises for 4xx/5xx, so the body is returned as-is
and no error payload is produced. -/
theorem C5_counterexample :
    is2xx 300 = false ∧
    (AlphaGenomeAPI.predict_variant_effect (some "key")
      (fun _ => .ok ⟨300, .obj []⟩) "chr11" 5248232 "C" "T" "human").fst
      = .ok (.obj []) ∧
    resultHasKey (AlphaGenomeAPI.predict_variant_effect (some "key")
      (fun _ => .ok ⟨300, .obj []⟩) "chr11" 5248232 "C" "T" "human").fst
      "error" = false :=
  ⟨rfl, rfl, rfl⟩

/-- C5 (amended): with a key configured, every call to
`predict_variant_effect` posts exactly one HTTP request, whose JSON body
has exactly the keys chromosome, position, ref, alt, organism and
modalities, with the fixed timeout 60 (within 60–120 seconds); a 4xx/5xx
response status raises and is then converted to the error payload, while
any other delivered status returns the response body. -/
theorem C5_single_post_shape (api_key : Option String)
    (http : HttpRequest → HttpResult) (c : String) (p : Int)
    (r a o : String) (hk : truthy api_key = true) :
    (AlphaGenomeAPI.predict_variant_effect api_key http c p r a o).snd
      = [AlphaGenomeAPI.predictRequest c p r a o] ∧
    objKeys (AlphaGenomeAPI.predictRequest c p r a o).body
      = ["chromosome", "position", "ref", "alt", "organism", "modalities"] ∧
    (AlphaGenomeAPI.predictRequest c p r a o).timeout = 60 ∧
    60 ≤ (AlphaGenomeAPI.predictRequest c p r a o).timeout ∧
    (AlphaGenomeAPI.predictRequest c p r a o).timeout ≤ 120 ∧
    (∀ resp : HttpResponse,
      http (AlphaGenomeAPI.predictRequest c p r a o) = .ok resp →
      isHttpError resp.status_code = true →
      (AlphaGenomeAPI.predict_variant_effect api_key http c p r a o).fst
        = .ok (.obj [("error",
            .str ("HTTP error " ++ toString resp.status_code))])) ∧
    (∀ resp : HttpResponse,
      http (AlphaGenomeAPI.predictRequest c p r a o) = .ok resp →
      isHttpError resp.status_code = false →
      (AlphaGenomeAPI.predict_variant_effect api_key http c p r a o).fst
        = .ok resp.body) := by
  refine ⟨?_, rfl, rfl, Nat.le_refl 60, (by decide : (60 : Nat) ≤ 120),
    ?_, ?_⟩
  · cases hh : http (AlphaGenomeAPI.predictRequest c p r a o) with
    | ok resp =>
      simp [AlphaGenomeAPI.predict_variant_effect, hk, hh, raise_for_status]
      by_cases he : isHttpError resp.status_code = true <;> simp [he]
    | exn e => simp [AlphaGenomeAPI.predict_variant_effect, hk, hh]
  · intro resp hh he
    simp [AlphaGenomeAPI.predict_variant_effect, hk, hh,
      raise_for_status, he]
  · intro resp hh he
    simp [AlphaGenomeAPI.predict_variant_effect, hk, hh,
      raise_for_status, he]

/-- Witness for the amended C5 at the sickle-cell input with a 404
response. -/
theorem C5_single_post_shape_witness :
    (AlphaGenomeAPI.predict_variant_effect (some "key")
      (fun _ => .ok ⟨404, .obj []⟩) "chr11" 5248232 "C" "T" "human").snd
      = [AlphaGenomeAPI.predictRequest "chr11" 5248232 "C" "T" "human"] ∧
    objKeys (AlphaGenomeAPI.predictRequest "chr11" 5248232 "C" "T" "human").body
      = ["chromosome", "position", "ref", "alt", "organism", "modalities"] ∧
    (AlphaGenomeAPI.predictRequest "chr11" 5248232 "C" "T" "human").timeout = 60 ∧
    60 ≤ (AlphaGenomeAPI.predictRequest "chr11" 5248232 "C" "T" "human").timeout ∧
    (AlphaGenomeAPI.predictRequest "chr11" 5248232 "C" "T" "human").timeout ≤ 120 ∧
    (∀ resp : HttpResponse,
      (fun (_ : HttpRequest) => HttpResult.ok ⟨404, .obj []⟩)
        (AlphaGenomeAPI.predictRequest "chr11" 5248232 "C" "T" "human") = .ok resp →
      isHttpError resp.status_code = true →
      (AlphaGenomeAPI.predict_variant_effect (some "key")
        (fun _ => .ok ⟨404, .obj []⟩) "chr11" 5248232 "C" "T" "human").fst
        = .ok (.obj [("error",
            .str ("HTTP error " ++ toString resp.status_code))])) ∧
    (∀ resp : HttpResponse,
      (fun (_ : HttpRequest) => HttpResult.ok ⟨404, .obj []⟩)
        (AlphaGenomeAPI.predictRequest "chr11" 5248232 "C" "T" "human") = .ok resp →
      isHttpError resp.status_code = false →
      (AlphaGenomeAPI.predict_variant_effect (some "key")
        (fun _ => .ok ⟨404, .obj []⟩) "chr11" 5248232 "C" "T" "human").fst
        = .ok resp.body) :=
  C5_single_post_shape (some "key") (fun _ => .ok ⟨404, .obj []⟩)
    "chr11" 5248232 "C" "T" "human" (by decide)

/-- C6: `score_variant` has the same failure semantics as
`predict_variant_effect`: with a falsy key it returns, without raising,
the mock response tagged mock_data and issues no request; with a key set,
a transport-level failure is returned as a dictionary containing the key
`error` instead of raising. -/
theorem C6_score_failure_semantics (key1 key2 : Option String)
    (http : HttpRequest → HttpResult) (c : String) (p : Int)
    (r a : String) (qn : Bool)
    (hk1 : truthy key1 = false) (hk2 : truthy key2 = true)
    (hfail : isTransportFailure
      (http (AlphaGenomeAPI.scoreRequest c p r a qn)) = true) :
    (completedOk (AlphaGenomeAPI.score_variant key1 http c p r a qn).fst
        = true ∧
     statusOfResult (AlphaGenomeAPI.score_variant key1 http c p r a qn).fst
        = some "mock_data" ∧
     (AlphaGenomeAPI.score_variant key1 http c p r a qn).snd = []) ∧
    (completedOk (AlphaGenomeAPI.score_variant key2 http c p r a qn).fst
        = true ∧
     resultHasKey (AlphaGenomeAPI.score_variant key2 http c p r a qn).fst
        "error" = true) := by
  constructor
  · refine ⟨?_, ?_, ?_⟩ <;>
      · simp only [AlphaGenomeAPI.score_variant, hk1]
        rfl
  · cases hh : http (AlphaGenomeAPI.scoreRequest c p r a qn) with
    | ok resp =>
      rw [hh] at hfail
      simp only [isTransportFailure] at hfail
      simp [AlphaGenomeAPI.score_variant, hk2, hh, raise_for_status,
        hfail, completedOk, resultHasKey, hasKey, getItem, List.lookup]
    | exn e =>
      simp [AlphaGenomeAPI.score_variant, hk2, hh, completedOk,
        resultHasKey, hasKey, getItem, List.lookup]

/-- Witness for C6 at the sickle-cell input. -/
theorem C6_score_failure_semantics_witness :
    (completedOk (AlphaGenomeAPI.score_variant none
        (fun _ => .exn "timeout") "chr11" 5248232 "C" "T" true).fst = true ∧
     statusOfResult (AlphaGenomeAPI.score_variant none
        (fun _ => .exn "timeout") "chr11" 5248232 "C" "T" true).fst
        = some "mock_data" ∧
     (AlphaGenomeAPI.score_variant none
        (fun _ => .exn "timeout") "chr11" 5248232 "C" "T" true).snd = []) ∧
    (completedOk (AlphaGenomeAPI.score_variant (some "key")
        (fun _ => .exn "timeout") "chr11" 5248232 "C" "T" true).fst = true ∧
     resultHasKey (AlphaGenomeAPI.score_variant (some "key")
        (fun _ => .exn "timeout") "chr11" 5248232 "C" "T" true).fst
        "error" = true) :=
  C6_score_failure_semantics none (some "key") (fun _ => .exn "timeout")
    "chr11" 5248232 "C" "T" true (by decide) (by decide) (by decide)

/-- C7: allele content is never validated.  For arbitrary allele strings
(empty, non-IUPAC or longer than one character included), dataclass
construction succeeds with the strings stored verbatim, both payloads
embed them verbatim under `ref` and `alt`, `predict_variant_effect` and
`score_variant` complete without raising for every key and every HTTP
outcome, and the locally built responses embed them in the variant
identifier. -/
theorem C7_no_allele_validation (c : String) (p : Int)
    (r a g d hg cs o : String) (api_key : Option String)
    (http : HttpRequest → HttpResult) (qn : Bool)
    (mo : Option (List String)) :
    (∃ m w, SickleCellMutation.create c p r a g d hg cs = .ok (m, w) ∧
       m.ref_allele = r ∧ m.alt_allele = a) ∧
    getItem (AlphaGenomeAPI.predictPayload c p r a o) "ref"
      = .ok (.str r) ∧
    getItem (AlphaGenomeAPI.predictPayload c p r a o) "alt"
      = .ok (.str a) ∧
    getItem (AlphaGenomeAPI.scorePayload c p r a qn) "ref"
      = .ok (.str r) ∧
    getItem (AlphaGenomeAPI.scorePayload c p r a qn) "alt"
      = .ok (.str a) ∧
    completedOk (AlphaGenomeAPI.predict_variant_effect api_key http
      c p r a o).fst = true ∧
    completedOk (AlphaGenomeAPI.score_variant api_key http
      c p r a qn).fst = true ∧
    variantOfResult (AlphaGenomeAPI.predict_variant_effect none http
      c p r a o).fst = some (variantId c p r a) ∧
    (AlphaGenomePredictor.predict_variant_effect c p r a mo).isSome
      = true := by
  refine ⟨⟨⟨c, p, r, a, g, d, hg, cs⟩, post_init_warnings r a,
      rfl, rfl, rfl⟩, rfl, rfl, rfl, rfl, ?_, ?_, rfl, rfl⟩
  · by_cases hk : truthy api_key = false
    · simp only [AlphaGenomeAPI.predict_variant_effect, hk]
      rfl
    · rw [Bool.not_eq_false] at hk
      cases hh : http (AlphaGenomeAPI.predictRequest c p r a o) with
      | ok resp =>
        simp [AlphaGenomeAPI.predict_variant_effect, hk, hh,
          raise_for_status]
        by_cases he : isHttpError resp.status_code = true <;>
          simp [he, completedOk]
      | exn e =>
        simp [AlphaGenomeAPI.predict_variant_effect, hk, hh, completedOk]
  · by_cases hk : truthy api_key = false
    · simp only [AlphaGenomeAPI.score_variant, hk]
      rfl
    · rw [Bool.not_eq_false] at hk
      cases hh : http (AlphaGenomeAPI.scoreRequest c p r a qn) with
      | ok resp =>
        simp [AlphaGenomeAPI.score_variant, hk, hh, raise_for_status]
        by_cases he : isHttpError resp.status_code = true <;>
          simp [he, completedOk]
      | exn e =>
        simp [AlphaGenomeAPI.score_variant, hk, hh, completedOk]

/-- C8: for every input, the sickle-cell script's
`AlphaGenomePredictor.predict_variant_effect` returns a non-None
dictionary mapping every requested modality (the five defaults when none
are passed) to the record with score None, direction None, confidence
None and status awaiting_api_connection; its embedding is a total
function, reflecting that the `except` branch returning None is
unreachable since the body performs no HTTP request. -/
theorem C8_awaiting_records (c : String) (p : Int) (r a : String)
    (mo : Option (List String)) (m : String)
    (hm : m ∈ mo.getD AlphaGenomePredictor.defaultModalities) :
    (AlphaGenomePredictor.predict_variant_effect c p r a mo).isSome
      = true ∧
    modalityRecordOfOpt
      (AlphaGenomePredictor.predict_variant_effect c p r a mo) m
      = some AlphaGenomePredictor.awaitingRecord ∧
    getItem AlphaGenomePredictor.awaitingRecord "score" = .ok .null ∧
    getItem AlphaGenomePredictor.awaitingRecord "direction" = .ok .null ∧
    getItem AlphaGenomePredictor.awaitingRecord "confidence" = .ok .null ∧
    getItem AlphaGenomePredictor.awaitingRecord "status"
      = .ok (.str "awaiting_api_connection") := by
  refine ⟨rfl, ?_, rfl, rfl, rfl, rfl⟩
  have h := lookup_map_const AlphaGenomePredictor.awaitingRecord m
    (mo.getD AlphaGenomePredictor.defaultModalities) hm
  simp [modalityRecordOfOpt, AlphaGenomePredictor.predict_variant_effect,
    getItem, List.lookup, h]

/-- Witness for C8 with the default modality list at the splicing
modality. -/
theorem C8_awaiting_records_witness :
    (AlphaGenomePredictor.predict_variant_effect
      "chr11" 5248232 "C" "T" none).isSome = true ∧
    modalityRecordOfOpt
      (AlphaGenomePredictor.predict_variant_effect "chr11" 5248232 "C" "T" none)
      "splicing" = some AlphaGenomePredictor.awaitingRecord ∧
    getItem AlphaGenomePredictor.awaitingRecord "score" = .ok .null ∧
    getItem AlphaGenomePredictor.awaitingRecord "direction" = .ok .null ∧
    getItem AlphaGenomePredictor.awaitingRecord "confidence" = .ok .null ∧
    getItem AlphaGenomePredictor.awaitingRecord "status"
      = .ok (.str "awaiting_api_connection") :=
  C8_awaiting_records "chr11" 5248232 "C" "T" none "splicing" (by decide)

/-- C9: whenever `_mock_scores` completes, its quantile_scores entry holds
exactly the two modalities gene_expression and splicing, in that order,
and no other. -/
theorem C9_quantile_scores_exactly_two (payload : JVal)
    (h : completedOk (AlphaGenomeAPI.mock_scores payload) = true) :
    objKeys (quantileScoresOfResult (AlphaGenomeAPI.mock_scores payload))
      = ["gene_expression", "splicing"] := by
  cases hc : getItem payload "chromosome" with
  | error e =>
    simp [AlphaGenomeAPI.mock_scores, hc, Except.bind, completedOk] at h
  | ok cv =>
    cases hp : getItem payload "position" with
    | error e =>
      simp [AlphaGenomeAPI.mock_scores, hc, hp, Except.bind,
        completedOk] at h
    | ok pv =>
      cases hr : getItem payload "ref" with
      | error e =>
        simp [AlphaGenomeAPI.mock_scores, hc, hp, hr, Except.bind,
          completedOk] at h
      | ok rv =>
        cases ha : getItem payload "alt" with
        | error e =>
          simp [AlphaGenomeAPI.mock_scores, hc, hp, hr, ha, Except.bind,
            completedOk] at h
        | ok av =>
          simp only [AlphaGenomeAPI.mock_scores, hc, hp, hr, ha]
          rfl

/-- Witness for C9 at the score payload of the sickle-cell input. -/
theorem C9_quantile_scores_exactly_two_witness :
    objKeys (quantileScoresOfResult (AlphaGenomeAPI.mock_scores
      (AlphaGenomeAPI.scorePayload "chr11" 5248232 "C" "T" true)))
      = ["gene_expression", "splicing"] :=
  C9_quantile_scores_exactly_two
    (AlphaGenomeAPI.scorePayload "chr11" 5248232 "C" "T" true) rfl

/-- C10: the mock generators are deterministic functions of the payload
and read only its chromosome, position, ref, alt and organism entries:
payloads agreeing on those entries produce identical `_mock_prediction`
outputs, and payloads agreeing on chromosome, position, ref and alt
produce identical `_mock_scores` outputs. -/
theorem C10_mock_determinism (p q u w : JVal)
    (hc : getItem p "chromosome" = getItem q "chromosome")
    (hp : getItem p "position" = getItem q "position")
    (hr : getItem p "ref" = getItem q "ref")
    (ha : getItem p "alt" = getItem q "alt")
    (ho : getItem p "organism" = getItem q "organism")
    (sc : getItem u "chromosome" = getItem w "chromosome")
    (sp : getItem u "position" = getItem w "position")
    (sr : getItem u "ref" = getItem w "ref")
    (sa : getItem u "alt" = getItem w "alt") :
    AlphaGenomeAPI.mock_prediction p = AlphaGenomeAPI.mock_prediction q ∧
    AlphaGenomeAPI.mock_scores u = AlphaGenomeAPI.mock_scores w := by
  unfold AlphaGenomeAPI.mock_prediction AlphaGenomeAPI.mock_scores
  rw [hc, hp, hr, ha, ho, sc, sp, sr, sa]
  exact ⟨rfl, rfl⟩

/-- Witness for C10 with two payloads that differ only in their
modalities and quantile_normalized entries. -/
theorem C10_mock_determinism_witness :
    AlphaGenomeAPI.mock_prediction
      (AlphaGenomeAPI.predictPayload "chr11" 5248232 "C" "T" "human")
      = AlphaGenomeAPI.mock_prediction
        (.obj [("chromosome", .str "chr11"), ("position", .int 5248232),
               ("ref", .str "C"), ("alt", .str "T"),
               ("organism", .str "human"), ("modalities", .arr [])]) ∧
    AlphaGenomeAPI.mock_scores
      (AlphaGenomeAPI.scorePayload "chr11" 5248232 "C" "T" true)
      = AlphaGenomeAPI.mock_scores
        (AlphaGenomeAPI.scorePayload "chr11" 5248232 "C" "T" false) :=
  C10_mock_determinism
    (AlphaGenomeAPI.predictPayload "chr11" 5248232 "C" "T" "human")
    (.obj [("chromosome", .str "chr11"), ("position", .int 5248232),
           ("ref", .str "C"), ("alt", .str "T"),
           ("organism", .str "human"), ("modalities", .arr [])])
    (AlphaGenomeAPI.scorePayload "chr11" 5248232 "C" "T" true)
    (AlphaGenomeAPI.scorePayload "chr11" 5248232 "C" "T" false)
    rfl rfl rfl rfl rfl rfl rfl rfl rfl
